import Mathlib

/-!
Shallow embedding of the cubic-spline interpolation engine
(`calc.rs`, `points_iter.rs`, `points3d_iter.rs`) of the `cubic_spline`
repository.  Coordinates (`f64` in the source) are modelled as exact
rationals `ℚ`; `u32` segment counts as `ℕ`.  The stateful window
iterators are modelled as explicit state-passing step functions driven
by fuel equal to the number of windows plus one, so the model runs the
iterator to exhaustion exactly as the `for` loop in `calc_spline` does.
-/

namespace CubicSpline

/-- Modelled from the spec: the 2D point entity (the source file defining the
2D `Point` is not part of the excerpt; it is the structurally identical 2D
analog of `Point3D` in `points3d.rs`): two coordinates plus an optional
per-point tension override. -/
structure Point where
  x : ℚ
  y : ℚ
  tension : Option ℚ
deriving DecidableEq, Repr

/-- `Point::new(x, y)` — a point with no tension override. -/
def Point.new (x y : ℚ) : Point := ⟨x, y, none⟩

/-- Modelled from the spec: the 2D configuration (`SplineOpts`, source file not
in the excerpt; it is the structurally identical 2D analog of `SplineOpts3D`
in `opts3d.rs`): global tension, segments per interval, optional hidden
anchors, closed flag. -/
structure SplineOpts where
  tension : ℚ
  num_of_segments : ℕ
  hidden_point_at_start : Option Point
  hidden_point_at_end : Option Point
  closed : Bool
deriving DecidableEq

/-- The error type (`Error::TooFewPoints` is the only variant `calc_spline`
produces). -/
inductive Error where
  | TooFewPoints
deriving DecidableEq, Repr

/-- Rust slice indexing `pts[i]`; callers of the iterator guarantee the
index is in bounds (`calc_spline` rejects sequences shorter than 2 first). -/
def getP (pts : List Point) (i : ℕ) : Point := pts.getD i (Point.new 0 0)

/-- A four-point window `(prev, curr, next, next2)` (`PointsToCalc`). -/
abbrev Window := Point × Point × Point × Point

/-- State of `PointsIter` (`points_iter.rs`). -/
structure PointsIter where
  maxIndex : ℕ
  index : ℕ
  points : List Point
  current : Window
  hidden_point_at_end : Option Point
  closed : Bool

/-- `PointsIter::new` (`points_iter.rs` lines 15–48). -/
def PointsIter.new (points : List Point) (opts : SplineOpts) : PointsIter :=
  let pts := points
  let curr := getP pts 0
  let prev :=
    if opts.closed then getP pts (pts.length - 1)
    else (opts.hidden_point_at_start).getD curr
  let next := getP pts 1
  let next2 :=
    match pts.get? 2 with
    | some next2 => next2
    | none => if opts.closed then getP pts 0 else next
  let maxIndex := if opts.closed then pts.length else pts.length - 1
  { maxIndex := maxIndex
    index := 0
    points := pts
    current := (prev, curr, next, next2)
    hidden_point_at_end := opts.hidden_point_at_end
    closed := opts.closed }

/-- `PointsIter::update_current` (`points_iter.rs` lines 55–90): shift the
window one step and compute the new trailing point from the (already
incremented) index. -/
def PointsIter.update_current (s : PointsIter) : PointsIter :=
  let c1 := s.current.2.1
  let c2 := s.current.2.2.1
  let c3 := s.current.2.2.2
  let pts := s.points
  let last :=
    if s.closed then
      if s.index = s.maxIndex - 2 then getP pts 0
      else if s.index = s.maxIndex - 1 then getP pts 1
      else getP pts (s.index + 2)
    else
      if s.index = s.maxIndex - 1 then (s.hidden_point_at_end).getD c3
      else getP pts (s.index + 2)
  { s with current := (c1, c2, c3, last) }

/-- `Iterator::next` for `PointsIter` (`points_iter.rs` lines 93–112):
returns the emitted window (if any) together with the successor state. -/
def PointsIter.next (s : PointsIter) : Option Window × PointsIter :=
  if s.index = s.maxIndex then (none, s)
  else
    let points_to_calc := s.current
    let s1 : PointsIter := { s with index := s.index + 1 }
    let s2 := if s1.index = s1.maxIndex then s1 else s1.update_current
    (some points_to_calc, s2)

/-- Run the iterator to exhaustion (the `for` loop in `calc_spline`),
with fuel bounding the number of steps. -/
def PointsIter.takeAll : ℕ → PointsIter → List Window
  | 0, _ => []
  | fuel + 1, s =>
    match s.next with
    | (none, _) => []
    | (some w, s') => w :: PointsIter.takeAll fuel s'

/-- The list of windows `for (prev, curr, next, next2) in iter` visits,
in order.  Fuel `maxIndex + 1` always exhausts the iterator, since the
index grows by one per step until it reaches `maxIndex`. -/
def windows (points : List Point) (opts : SplineOpts) : List Window :=
  let it := PointsIter.new points opts
  PointsIter.takeAll (it.maxIndex + 1) it

/-- The points one window contributes to the output: the body of the outer
`for` loop of `calc_spline` (`calc.rs` lines 53–78) — tension resolution,
tangents, and the inner loop over `t = 0 .. num_of_segments - 1`. -/
def windowPoints (w : Window) (tension_from_opt : ℚ) (num_of_segments : ℕ) :
    List Point :=
  match w with
  | (prev, curr, next, next2) =>
    let tension := curr.tension.getD tension_from_opt
    let t1x := (next.x - prev.x) * tension
    let t2x := (next2.x - curr.x) * tension
    let t1y := (next.y - prev.y) * tension
    let t2y := (next2.y - curr.y) * tension
    (List.range num_of_segments).map fun (t : ℕ) =>
      let st : ℚ := (t : ℚ) / (num_of_segments : ℚ)
      let st_pow2 := st ^ 2
      let st_pow3 := st ^ 3
      let st_pow2x3 := 3 * st_pow2
      let st_pow3x2 := 2 * st_pow3
      let c1 := st_pow3x2 - st_pow2x3 + 1
      let c2 := -st_pow3x2 + st_pow2x3
      let c3 := st_pow3 - 2 * st_pow2 + st
      let c4 := st_pow3 - st_pow2
      let x := c1 * curr.x + c2 * next.x + c3 * t1x + c4 * t2x
      let y := c1 * curr.y + c2 * next.y + c3 * t1y + c4 * t2y
      Point.new x y

/-- `calc_spline` (`calc.rs` lines 29–92). -/
def calc_spline (points : List Point) (opts : SplineOpts) :
    Except Error (List Point) :=
  if points.length < 2 then .error .TooFewPoints
  else
    let tension_from_opt := opts.tension
    let num_of_segments := opts.num_of_segments
    let body :=
      ((windows points opts).map
        (fun w => windowPoints w tension_from_opt num_of_segments)).flatten
    let closing : List Point :=
      if opts.closed then
        match points.head? with
        | some first => [Point.new first.x first.y]
        | none => []
      else
        match points.getLast? with
        | some last => [Point.new last.x last.y]
        | none => []
    .ok (body ++ closing)

/-- The 3D point entity (`Point3D` in `points3d.rs`). -/
structure Point3D where
  x : ℚ
  y : ℚ
  z : ℚ
  tension : Option ℚ
deriving DecidableEq, Repr

/-- `Point3D::new(x, y, z)` — a 3D point with no tension override. -/
def Point3D.new (x y z : ℚ) : Point3D := ⟨x, y, z, none⟩

/-- The 3D configuration (`SplineOpts3D` in `opts3d.rs`). -/
structure SplineOpts3D where
  tension : ℚ
  num_of_segments : ℕ
  hidden_point_at_start : Option Point3D
  hidden_point_at_end : Option Point3D
  closed : Bool
deriving DecidableEq

/-- Rust slice indexing `pts[i]` for 3D point lists. -/
def getP3 (pts : List Point3D) (i : ℕ) : Point3D := pts.getD i (Point3D.new 0 0 0)

/-- A four-point 3D window (`Points3DToCalc`). -/
abbrev Window3D := Point3D × Point3D × Point3D × Point3D

/-- State of `Points3DIter` (`points3d_iter.rs`). -/
structure Points3DIter where
  maxIndex : ℕ
  index : ℕ
  points : List Point3D
  current : Window3D
  hidden_point_at_end : Option Point3D
  closed : Bool

/-- `Points3DIter::new` (`points3d_iter.rs`). -/
def Points3DIter.new (points : List Point3D) (opts : SplineOpts3D) : Points3DIter :=
  let pts := points
  let curr := getP3 pts 0
  let prev :=
    if opts.closed then getP3 pts (pts.length - 1)
    else (opts.hidden_point_at_start).getD curr
  let next := getP3 pts 1
  let next2 :=
    match pts.get? 2 with
    | some next2 => next2
    | none => if opts.closed then getP3 pts 0 else next
  let maxIndex := if opts.closed then pts.length else pts.length - 1
  { maxIndex := maxIndex
    index := 0
    points := pts
    current := (prev, curr, next, next2)
    hidden_point_at_end := opts.hidden_point_at_end
    closed := opts.closed }

/-- `Points3DIter::update_current` (`points3d_iter.rs`). -/
def Points3DIter.update_current (s : Points3DIter) : Points3DIter :=
  let c1 := s.current.2.1
  let c2 := s.current.2.2.1
  let c3 := s.current.2.2.2
  let pts := s.points
  let last :=
    if s.closed then
      if s.index = s.maxIndex - 2 then getP3 pts 0
      else if s.index = s.maxIndex - 1 then getP3 pts 1
      else getP3 pts (s.index + 2)
    else
      if s.index = s.maxIndex - 1 then (s.hidden_point_at_end).getD c3
      else getP3 pts (s.index + 2)
  { s with current := (c1, c2, c3, last) }

/-- `Iterator::next` for `Points3DIter`. -/
def Points3DIter.next (s : Points3DIter) : Option Window3D × Points3DIter :=
  if s.index = s.maxIndex then (none, s)
  else
    let points_to_calc := s.current
    let s1 : Points3DIter := { s with index := s.index + 1 }
    let s2 := if s1.index = s1.maxIndex then s1 else s1.update_current
    (some points_to_calc, s2)

/-- Run the 3D iterator to exhaustion. -/
def Points3DIter.takeAll : ℕ → Points3DIter → List Window3D
  | 0, _ => []
  | fuel + 1, s =>
    match s.next with
    | (none, _) => []
    | (some w, s') => w :: Points3DIter.takeAll fuel s'

/-- The list of windows the 3D `for` loop visits, in order. -/
def windows3d (points : List Point3D) (opts : SplineOpts3D) : List Window3D :=
  let it := Points3DIter.new points opts
  Points3DIter.takeAll (it.maxIndex + 1) it

/-- The points one 3D window contributes to the output: the body of the
outer `for` loop of `calc_spline_3d` (`calc.rs` lines 141–169). -/
def windowPoints3d (w : Window3D) (tension_from_opt : ℚ) (num_of_segments : ℕ) :
    List Point3D :=
  match w with
  | (prev, curr, next, next2) =>
    let tension := curr.tension.getD tension_from_opt
    let t1x := (next.x - prev.x) * tension
    let t2x := (next2.x - curr.x) * tension
    let t1y := (next.y - prev.y) * tension
    let t2y := (next2.y - curr.y) * tension
    let t1z := (next.z - prev.z) * tension
    let t2z := (next2.z - curr.z) * tension
    (List.range num_of_segments).map fun (t : ℕ) =>
      let st : ℚ := (t : ℚ) / (num_of_segments : ℚ)
      let st_pow2 := st ^ 2
      let st_pow3 := st ^ 3
      let st_pow2x3 := 3 * st_pow2
      let st_pow3x2 := 2 * st_pow3
      let c1 := st_pow3x2 - st_pow2x3 + 1
      let c2 := -st_pow3x2 + st_pow2x3
      let c3 := st_pow3 - 2 * st_pow2 + st
      let c4 := st_pow3 - st_pow2
      let x := c1 * curr.x + c2 * next.x + c3 * t1x + c4 * t2x
      let y := c1 * curr.y + c2 * next.y + c3 * t1y + c4 * t2y
      let z := c1 * curr.z + c2 * next.z + c3 * t1z + c4 * t2z
      Point3D.new x y z

/-- `calc_spline_3d` (`calc.rs` lines 117–183). -/
def calc_spline_3d (points : List Point3D) (opts : SplineOpts3D) :
    Except Error (List Point3D) :=
  if points.length < 2 then .error .TooFewPoints
  else
    let tension_from_opt := opts.tension
    let num_of_segments := opts.num_of_segments
    let body :=
      ((windows3d points opts).map
        (fun w => windowPoints3d w tension_from_opt num_of_segments)).flatten
    let closing : List Point3D :=
      if opts.closed then
        match points.head? with
        | some first => [Point3D.new first.x first.y first.z]
        | none => []
      else
        match points.getLast? with
        | some last => [Point3D.new last.x last.y last.z]
        | none => []
    .ok (body ++ closing)

/-!  Derived, specification-side definitions used to state the claims. -/

/-- The number of windows the iterator produces: `N` when closed, `N − 1`
when open. -/
def maxIdx (pts : List Point) (opts : SplineOpts) : ℕ :=
  if opts.closed then pts.length else pts.length - 1

/-- 3D analog of `maxIdx`. -/
def maxIdx3 (pts : List Point3D) (opts : SplineOpts3D) : ℕ :=
  if opts.closed then pts.length else pts.length - 1

/-- Closed-form description of the `j`-th window the iterator emits
(for `j < maxIdx pts opts`, on inputs with at least two points). -/
def specWindow (pts : List Point) (opts : SplineOpts) (j : ℕ) : Window :=
  let N := pts.length
  let prev :=
    if j = 0 then
      if opts.closed then getP pts (N - 1)
      else (opts.hidden_point_at_start).getD (getP pts 0)
    else getP pts (j - 1)
  let curr := getP pts j
  let next :=
    if opts.closed = true ∧ j = N - 1 then getP pts 0 else getP pts (j + 1)
  let next2 :=
    if opts.closed then
      if j = N - 2 then getP pts 0
      else if j = N - 1 then getP pts 1
      else getP pts (j + 2)
    else
      if j = 0 ∧ N = 2 then getP pts 1
      else if j = N - 2 then (opts.hidden_point_at_end).getD (getP pts (j + 1))
      else getP pts (j + 2)
  (prev, curr, next, next2)

/-- The `prev` component of a window. -/
def prevOf (w : Window) : Point := w.1

/-- The `next2` component of a window. -/
def next2Of (w : Window) : Point := w.2.2.2

/-- The `next2` point demanded by cyclic index arithmetic on a closed
curve: `point[(j + 2) mod N]`. -/
def cyclicNext2 (pts : List Point) (j : ℕ) : Point :=
  getP pts ((j + 2) % pts.length)

/-- The sampled (non-closing) part of the output of `calc_spline`:
everything the window loop pushes. -/
def sampledPart (pts : List Point) (opts : SplineOpts) : List Point :=
  ((windows pts opts).map
    (fun w => windowPoints w opts.tension opts.num_of_segments)).flatten

/-- 3D analog of `sampledPart`. -/
def sampledPart3d (pts : List Point3D) (opts : SplineOpts3D) : List Point3D :=
  ((windows3d pts opts).map
    (fun w => windowPoints3d w opts.tension opts.num_of_segments)).flatten

/-- The closing point `calc_spline` appends after the window loop:
a copy of the first input point when closed, of the last one otherwise. -/
def closingPoint (pts : List Point) (opts : SplineOpts) : Point :=
  if opts.closed then Point.new (getP pts 0).x (getP pts 0).y
  else Point.new (getP pts (pts.length - 1)).x (getP pts (pts.length - 1)).y

/-- 3D analog of `closingPoint`. -/
def closingPoint3d (pts : List Point3D) (opts : SplineOpts3D) : Point3D :=
  if opts.closed then
    Point3D.new (getP3 pts 0).x (getP3 pts 0).y (getP3 pts 0).z
  else
    Point3D.new (getP3 pts (pts.length - 1)).x (getP3 pts (pts.length - 1)).y
      (getP3 pts (pts.length - 1)).z

/-- Cost instrumentation of `calc_spline`: how many times the statement
`let st = f64::from(t) / num_of_segments_f64` (the only division in the
evaluation) executes — once per iteration of the inner sampling loop,
i.e. `num_of_segments` times per window, and not at all when the call
errors out early. -/
def sampleDivisionCount (pts : List Point) (opts : SplineOpts) : ℕ :=
  if pts.length < 2 then 0
  else (windows pts opts).length * opts.num_of_segments

/-- The iterator state just before emitting window `j`. -/
def expectedState (pts : List Point) (opts : SplineOpts) (j : ℕ) : PointsIter :=
  { maxIndex := maxIdx pts opts
    index := j
    points := pts
    current := specWindow pts opts j
    hidden_point_at_end := opts.hidden_point_at_end
    closed := opts.closed }

lemma PointsIter_new_eq_expectedState (pts : List Point) (opts : SplineOpts)
    (hN : 2 ≤ pts.length) :
    PointsIter.new pts opts = expectedState pts opts 0 := by
  obtain ⟨p0, pts'⟩ : ∃ p0 pts', pts = p0 :: pts' := by
    cases pts with
    | nil => simp at hN
    | cons a l => exact ⟨a, l, rfl⟩
  obtain ⟨pts', rfl⟩ := pts'
  obtain ⟨p1, pts', rfl⟩ : ∃ p1 pts'', pts' = p1 :: pts'' := by
    cases pts' with
    | nil => simp at hN
    | cons a l => exact ⟨a, l, rfl⟩
  cases pts' with
  | nil =>
    cases hc : opts.closed <;>
      simp [PointsIter.new, expectedState, specWindow, maxIdx, getP, hc]
  | cons p2 rest =>
    cases hc : opts.closed <;>
      simp [PointsIter.new, expectedState, specWindow, maxIdx, getP, hc,
        List.length_cons, Nat.succ_ne_zero]

lemma update_expectedState (pts : List Point) (opts : SplineOpts)
    (hN : 2 ≤ pts.length) (j : ℕ) (hj : j + 1 < maxIdx pts opts) :
    PointsIter.update_current { expectedState pts opts j with index := j + 1 } =
      expectedState pts opts (j + 1) := by
  cases hcl : opts.closed with
  | false =>
    simp only [maxIdx, hcl, if_false, Bool.false_eq_true] at hj
    simp only [PointsIter.update_current, expectedState, specWindow, maxIdx, hcl,
      Bool.false_eq_true, if_false, false_and, PointsIter.mk.injEq, true_and,
      and_true, Prod.mk.injEq]
    split_ifs <;>
      first
        | contradiction
        | omega
        | exact ⟨rfl, rfl, rfl⟩
  | true =>
    simp only [maxIdx, hcl, if_true] at hj
    simp only [PointsIter.update_current, expectedState, specWindow, maxIdx, hcl,
      if_true, true_and, PointsIter.mk.injEq, and_true, Prod.mk.injEq]
    split_ifs <;>
      first
        | contradiction
        | omega
        | exact ⟨rfl, rfl, rfl⟩

lemma takeAll_done (fuel : ℕ) (s : PointsIter) (h : s.index = s.maxIndex) :
    PointsIter.takeAll (fuel + 1) s = [] := by
  simp [PointsIter.takeAll, PointsIter.next, h]

lemma next_expectedState (pts : List Point) (opts : SplineOpts)
    (hN : 2 ≤ pts.length) (j : ℕ) (hj : j < maxIdx pts opts) :
    (expectedState pts opts j).next =
      (some (specWindow pts opts j),
        if j + 1 = maxIdx pts opts
        then { expectedState pts opts j with index := j + 1 }
        else expectedState pts opts (j + 1)) := by
  unfold PointsIter.next
  have hne : (expectedState pts opts j).index ≠ (expectedState pts opts j).maxIndex := by
    simp only [expectedState]
    omega
  rw [if_neg hne]
  simp only [expectedState] at hne ⊢
  by_cases hend : j + 1 = maxIdx pts opts
  · rw [if_pos hend, if_pos hend]
  · rw [if_neg hend, if_neg hend]
    have := update_expectedState pts opts hN j (by omega)
    simp only [expectedState] at this
    exact congrArg _ this

lemma takeAll_expectedState (pts : List Point) (opts : SplineOpts)
    (hN : 2 ≤ pts.length) :
    ∀ k j, j + k = maxIdx pts opts →
      PointsIter.takeAll (k + 1) (expectedState pts opts j) =
        (List.range' j k).map (specWindow pts opts) := by
  intro k
  induction k with
  | zero =>
    intro j hj
    rw [takeAll_done 0 _ (by simp only [expectedState]; omega)]
    simp
  | succ k ih =>
    intro j hj
    have hjlt : j < maxIdx pts opts := by omega
    have hstep := next_expectedState pts opts hN j hjlt
    show PointsIter.takeAll (k + 1 + 1) (expectedState pts opts j) = _
    rw [PointsIter.takeAll, hstep]
    by_cases hend : j + 1 = maxIdx pts opts
    · have hk : k = 0 := by omega
      subst hk
      rw [if_pos hend]
      show specWindow pts opts j ::
          PointsIter.takeAll 1 { expectedState pts opts j with index := j + 1 } = _
      rw [takeAll_done 0 _ (by simp only [expectedState]; omega)]
      simp [List.range']
    · rw [if_neg hend]
      show specWindow pts opts j ::
          PointsIter.takeAll (k + 1) (expectedState pts opts (j + 1)) = _
      rw [ih (j + 1) (by omega)]
      simp [List.range']

/-- The window list is exactly `specWindow` applied to `0, …, maxIdx − 1`. -/
lemma windows_eq (pts : List Point) (opts : SplineOpts) (hN : 2 ≤ pts.length) :
    windows pts opts = (List.range (maxIdx pts opts)).map (specWindow pts opts) := by
  show PointsIter.takeAll ((PointsIter.new pts opts).maxIndex + 1)
    (PointsIter.new pts opts) = _
  rw [PointsIter_new_eq_expectedState pts opts hN]
  show PointsIter.takeAll (maxIdx pts opts + 1) (expectedState pts opts 0) = _
  rw [takeAll_expectedState pts opts hN (maxIdx pts opts) 0 (by omega),
    List.range_eq_range']

lemma takeAll_length (fuel : ℕ) :
    ∀ s : PointsIter, s.index ≤ s.maxIndex →
      (PointsIter.takeAll fuel s).length = min fuel (s.maxIndex - s.index) := by
  induction fuel with
  | zero => intro s _; simp [PointsIter.takeAll]
  | succ fuel ih =>
    intro s hs
    by_cases h : s.index = s.maxIndex
    · rw [takeAll_done fuel s h]
      simp [h]
    · have hlt : s.index < s.maxIndex := by omega
      rw [PointsIter.takeAll]
      unfold PointsIter.next
      rw [if_neg h]
      show (s.current :: PointsIter.takeAll fuel
        (if s.index + 1 = s.maxIndex then { s with index := s.index + 1 }
         else PointsIter.update_current { s with index := s.index + 1 })).length = _
      by_cases h2 : s.index + 1 = s.maxIndex
      · rw [if_pos h2]
        have hle : ({ s with index := s.index + 1 } : PointsIter).index ≤
            ({ s with index := s.index + 1 } : PointsIter).maxIndex := by
          show s.index + 1 ≤ s.maxIndex
          omega
        rw [List.length_cons, ih _ hle]
        show min fuel (s.maxIndex - (s.index + 1)) + 1 = _
        omega
      · rw [if_neg h2]
        have hle : (PointsIter.update_current { s with index := s.index + 1 }).index ≤
            (PointsIter.update_current { s with index := s.index + 1 }).maxIndex := by
          show s.index + 1 ≤ s.maxIndex
          omega
        rw [List.length_cons, ih _ hle]
        show min fuel (s.maxIndex - (s.index + 1)) + 1 = _
        omega

/-- The iterator always yields `maxIdx` windows. -/
lemma windows_length (pts : List Point) (opts : SplineOpts) :
    (windows pts opts).length = maxIdx pts opts := by
  show (PointsIter.takeAll ((PointsIter.new pts opts).maxIndex + 1)
    (PointsIter.new pts opts)).length = _
  rw [takeAll_length _ _ (by simp [PointsIter.new])]
  have : (PointsIter.new pts opts).maxIndex = maxIdx pts opts := rfl
  rw [this]
  have : (PointsIter.new pts opts).index = 0 := rfl
  rw [this]
  omega

lemma takeAll3_done (fuel : ℕ) (s : Points3DIter) (h : s.index = s.maxIndex) :
    Points3DIter.takeAll (fuel + 1) s = [] := by
  simp [Points3DIter.takeAll, Points3DIter.next, h]

lemma takeAll3_length (fuel : ℕ) :
    ∀ s : Points3DIter, s.index ≤ s.maxIndex →
      (Points3DIter.takeAll fuel s).length = min fuel (s.maxIndex - s.index) := by
  induction fuel with
  | zero => intro s _; simp [Points3DIter.takeAll]
  | succ fuel ih =>
    intro s hs
    by_cases h : s.index = s.maxIndex
    · rw [takeAll3_done fuel s h]
      simp [h]
    · have hlt : s.index < s.maxIndex := by omega
      rw [Points3DIter.takeAll]
      unfold Points3DIter.next
      rw [if_neg h]
      show (s.current :: Points3DIter.takeAll fuel
        (if s.index + 1 = s.maxIndex then { s with index := s.index + 1 }
         else Points3DIter.update_current { s with index := s.index + 1 })).length = _
      by_cases h2 : s.index + 1 = s.maxIndex
      · rw [if_pos h2]
        have hle : ({ s with index := s.index + 1 } : Points3DIter).index ≤
            ({ s with index := s.index + 1 } : Points3DIter).maxIndex := by
          show s.index + 1 ≤ s.maxIndex
          omega
        rw [List.length_cons, ih _ hle]
        show min fuel (s.maxIndex - (s.index + 1)) + 1 = _
        omega
      · rw [if_neg h2]
        have hle : (Points3DIter.update_current { s with index := s.index + 1 }).index ≤
            (Points3DIter.update_current { s with index := s.index + 1 }).maxIndex := by
          show s.index + 1 ≤ s.maxIndex
          omega
        rw [List.length_cons, ih _ hle]
        show min fuel (s.maxIndex - (s.index + 1)) + 1 = _
        omega

/-- The 3D iterator always yields `maxIdx3` windows. -/
lemma windows3d_length (pts : List Point3D) (opts : SplineOpts3D) :
    (windows3d pts opts).length = maxIdx3 pts opts := by
  show (Points3DIter.takeAll ((Points3DIter.new pts opts).maxIndex + 1)
    (Points3DIter.new pts opts)).length = _
  rw [takeAll3_length _ _ (by simp [Points3DIter.new])]
  have : (Points3DIter.new pts opts).maxIndex = maxIdx3 pts opts := rfl
  rw [this]
  have : (Points3DIter.new pts opts).index = 0 := rfl
  rw [this]
  omega

/-- Every window contributes exactly `num_of_segments` sampled points. -/
lemma windowPoints_length (w : Window) (τ : ℚ) (S : ℕ) :
    (windowPoints w τ S).length = S := by
  obtain ⟨a, b, c, d⟩ := w
  rw [windowPoints]
  simp only [List.length_map, List.length_range]

lemma windowPoints3d_length (w : Window3D) (τ : ℚ) (S : ℕ) :
    (windowPoints3d w τ S).length = S := by
  obtain ⟨a, b, c, d⟩ := w
  rw [windowPoints3d]
  simp only [List.length_map, List.length_range]

lemma flatten_length_const {α β : Type} (f : α → List β) (S : ℕ)
    (h : ∀ a, (f a).length = S) :
    ∀ l : List α, ((l.map f).flatten).length = l.length * S := by
  intro l
  induction l with
  | nil => simp
  | cons a l ih =>
    simp [ih, h a, Nat.succ_mul, Nat.add_comm]

lemma getElem?_eq_some_getP (pts : List Point) (i : ℕ) (h : i < pts.length) :
    pts[i]? = some (getP pts i) := by
  rw [List.getElem?_eq_getElem h, getP, List.getD_eq_getElem pts _ h]

lemma head?_eq_some_getP (pts : List Point) (h : 0 < pts.length) :
    pts.head? = some (getP pts 0) := by
  rw [List.head?_eq_getElem?, getElem?_eq_some_getP pts 0 h]

lemma getLast?_eq_some_getP (pts : List Point) (h : 0 < pts.length) :
    pts.getLast? = some (getP pts (pts.length - 1)) := by
  rw [List.getLast?_eq_getElem?, getElem?_eq_some_getP pts _ (by omega)]

lemma getElem?_eq_some_getP3 (pts : List Point3D) (i : ℕ) (h : i < pts.length) :
    pts[i]? = some (getP3 pts i) := by
  rw [List.getElem?_eq_getElem h, getP3, List.getD_eq_getElem pts _ h]

lemma head?_eq_some_getP3 (pts : List Point3D) (h : 0 < pts.length) :
    pts.head? = some (getP3 pts 0) := by
  rw [List.head?_eq_getElem?, getElem?_eq_some_getP3 pts 0 h]

lemma getLast?_eq_some_getP3 (pts : List Point3D) (h : 0 < pts.length) :
    pts.getLast? = some (getP3 pts (pts.length - 1)) := by
  rw [List.getLast?_eq_getElem?, getElem?_eq_some_getP3 pts _ (by omega)]

/-- On any valid input, the output is the concatenation of the sampled
points (in window order) and the single closing point. -/
lemma calc_spline_eq (pts : List Point) (opts : SplineOpts) (hN : 2 ≤ pts.length) :
    calc_spline pts opts = .ok (sampledPart pts opts ++ [closingPoint pts opts]) := by
  unfold calc_spline
  rw [if_neg (by omega)]
  show Except.ok (sampledPart pts opts ++ _) = _
  cases hcl : opts.closed with
  | false =>
    rw [getLast?_eq_some_getP pts (by omega)]
    simp [closingPoint, hcl]
  | true =>
    rw [head?_eq_some_getP pts (by omega)]
    simp [closingPoint, hcl]

/-- 3D analog of `calc_spline_eq`. -/
lemma calc_spline_3d_eq (pts : List Point3D) (opts : SplineOpts3D)
    (hN : 2 ≤ pts.length) :
    calc_spline_3d pts opts = .ok (sampledPart3d pts opts ++ [closingPoint3d pts opts]) := by
  unfold calc_spline_3d
  rw [if_neg (by omega)]
  show Except.ok (sampledPart3d pts opts ++ _) = _
  cases hcl : opts.closed with
  | false =>
    rw [getLast?_eq_some_getP3 pts (by omega)]
    simp [closingPoint3d, hcl]
  | true =>
    rw [head?_eq_some_getP3 pts (by omega)]
    simp [closingPoint3d, hcl]

lemma sampledPart_length (pts : List Point) (opts : SplineOpts) :
    (sampledPart pts opts).length = maxIdx pts opts * opts.num_of_segments := by
  unfold sampledPart
  rw [flatten_length_const _ opts.num_of_segments
    (fun w => windowPoints_length w opts.tension opts.num_of_segments),
    windows_length]

lemma sampledPart3d_length (pts : List Point3D) (opts : SplineOpts3D) :
    (sampledPart3d pts opts).length = maxIdx3 pts opts * opts.num_of_segments := by
  unfold sampledPart3d
  rw [flatten_length_const _ opts.num_of_segments
    (fun w => windowPoints3d_length w opts.tension opts.num_of_segments),
    windows3d_length]

/-!  Concrete inputs used by the witness theorems. -/

/-- Three concrete 2D points. -/
def pA : List Point := [Point.new 0 0, Point.new 1 0, Point.new 0 1]

/-- Two concrete 2D points. -/
def pB : List Point := [Point.new 0 0, Point.new 10 0]

/-- Three concrete 3D points. -/
def pA3 : List Point3D := [Point3D.new 0 0 0, Point3D.new 1 0 0, Point3D.new 0 1 1]

/-- Two concrete 3D points. -/
def pB3 : List Point3D := [Point3D.new 0 0 0, Point3D.new 10 0 1]

/-- Open-curve configuration, two segments per interval. -/
def oOpen : SplineOpts := ⟨1/2, 2, none, none, false⟩

/-- Closed-curve configuration, two segments per interval. -/
def oClosed : SplineOpts := ⟨1/2, 2, none, none, true⟩

/-- Open-curve configuration with zero segments per interval. -/
def oZero : SplineOpts := ⟨1/2, 0, none, none, false⟩

/-- Open-curve configuration with a hidden end anchor. -/
def oHid : SplineOpts := ⟨1/2, 4, none, some (Point.new 5 5), false⟩

/-- 3D open-curve configuration, two segments per interval. -/
def oOpen3 : SplineOpts3D := ⟨1/2, 2, none, none, false⟩

/-- 3D open-curve configuration with zero segments per interval. -/
def oZero3 : SplineOpts3D := ⟨1/2, 0, none, none, false⟩

/-!  The claims. -/

/-- C4: `calc_spline` (and `calc_spline_3d`) returns the too-few-points
error exactly when the input has fewer than 2 points, and an `Ok` result
(the only alternative, so in particular no partial output on failure)
exactly when it has at least 2. -/
theorem claim_C4_too_few_points (pts : List Point) (opts : SplineOpts)
    (pts3 : List Point3D) (opts3 : SplineOpts3D) :
    (calc_spline pts opts = .error .TooFewPoints ↔ pts.length < 2) ∧
    (calc_spline_3d pts3 opts3 = .error .TooFewPoints ↔ pts3.length < 2) ∧
    ((∃ res, calc_spline pts opts = .ok res) ↔ 2 ≤ pts.length) ∧
    ((∃ res, calc_spline_3d pts3 opts3 = .ok res) ↔ 2 ≤ pts3.length) := by
  refine ⟨?_, ?_, ?_, ?_⟩
  · unfold calc_spline
    split <;> simp <;> omega
  · unfold calc_spline_3d
    split <;> simp <;> omega
  · unfold calc_spline
    split <;> simp <;> omega
  · unfold calc_spline_3d
    split <;> simp <;> omega

/-- C1: for every input with `N ≥ 2` points and configuration with
`S ≥ 1` segments per interval, the output of `calc_spline` (and of
`calc_spline_3d`) has length exactly `intervals * S + 1`, where
`intervals = N` when closed and `N − 1` when open. -/
theorem claim_C1_output_length (pts : List Point) (opts : SplineOpts)
    (pts3 : List Point3D) (opts3 : SplineOpts3D)
    (hN : 2 ≤ pts.length) (hS : 1 ≤ opts.num_of_segments)
    (hN3 : 2 ≤ pts3.length) (hS3 : 1 ≤ opts3.num_of_segments) :
    Except.map List.length (calc_spline pts opts) =
      .ok ((if opts.closed then pts.length else pts.length - 1) *
        opts.num_of_segments + 1) ∧
    Except.map List.length (calc_spline_3d pts3 opts3) =
      .ok ((if opts3.closed then pts3.length else pts3.length - 1) *
        opts3.num_of_segments + 1) := by
  constructor
  · rw [calc_spline_eq pts opts hN]
    show Except.ok _ = _
    rw [Except.ok.injEq, List.length_append, sampledPart_length, maxIdx,
      List.length_singleton]
  · rw [calc_spline_3d_eq pts3 opts3 hN3]
    show Except.ok _ = _
    rw [Except.ok.injEq, List.length_append, sampledPart3d_length, maxIdx3,
      List.length_singleton]

theorem claim_C1_output_length_witness :
    2 ≤ pA.length ∧ 1 ≤ oOpen.num_of_segments ∧
    2 ≤ pA3.length ∧ 1 ≤ oOpen3.num_of_segments ∧
    (Except.map List.length (calc_spline pA oOpen) =
      .ok ((if oOpen.closed then pA.length else pA.length - 1) *
        oOpen.num_of_segments + 1) ∧
     Except.map List.length (calc_spline_3d pA3 oOpen3) =
      .ok ((if oOpen3.closed then pA3.length else pA3.length - 1) *
        oOpen3.num_of_segments + 1)) :=
  ⟨by decide, by decide, by decide, by decide,
    claim_C1_output_length pA oOpen pA3 oOpen3
      (by decide) (by decide) (by decide) (by decide)⟩

/-- C6: on every valid input, the output is the sampled points followed by
exactly one appended closing point, whose coordinates are identical to the
first input point's when closed, and to the last input point's when open. -/
theorem claim_C6_closing_point (pts : List Point) (opts : SplineOpts)
    (pts3 : List Point3D) (opts3 : SplineOpts3D)
    (hN : 2 ≤ pts.length) (hN3 : 2 ≤ pts3.length) :
    calc_spline pts opts = .ok (sampledPart pts opts ++
      [if opts.closed then Point.new (getP pts 0).x (getP pts 0).y
       else Point.new (getP pts (pts.length - 1)).x (getP pts (pts.length - 1)).y]) ∧
    calc_spline_3d pts3 opts3 = .ok (sampledPart3d pts3 opts3 ++
      [if opts3.closed then
        Point3D.new (getP3 pts3 0).x (getP3 pts3 0).y (getP3 pts3 0).z
       else
        Point3D.new (getP3 pts3 (pts3.length - 1)).x
          (getP3 pts3 (pts3.length - 1)).y (getP3 pts3 (pts3.length - 1)).z]) := by
  constructor
  · rw [calc_spline_eq pts opts hN, closingPoint]
  · rw [calc_spline_3d_eq pts3 opts3 hN3, closingPoint3d]

theorem claim_C6_closing_point_witness :
    2 ≤ pA.length ∧ 2 ≤ pA3.length ∧
    (calc_spline pA oClosed = .ok (sampledPart pA oClosed ++
      [if oClosed.closed then Point.new (getP pA 0).x (getP pA 0).y
       else Point.new (getP pA (pA.length - 1)).x (getP pA (pA.length - 1)).y]) ∧
     calc_spline_3d pA3 oOpen3 = .ok (sampledPart3d pA3 oOpen3 ++
      [if oOpen3.closed then
        Point3D.new (getP3 pA3 0).x (getP3 pA3 0).y (getP3 pA3 0).z
       else
        Point3D.new (getP3 pA3 (pA3.length - 1)).x
          (getP3 pA3 (pA3.length - 1)).y (getP3 pA3 (pA3.length - 1)).z])) :=
  ⟨by decide, by decide,
    claim_C6_closing_point pA oClosed pA3 oOpen3 (by decide) (by decide)⟩

lemma sampledPart_eq_nil (pts : List Point) (opts : SplineOpts)
    (hS : opts.num_of_segments = 0) : sampledPart pts opts = [] := by
  rw [← List.length_eq_zero, sampledPart_length, hS, Nat.mul_zero]

lemma sampledPart3d_eq_nil (pts : List Point3D) (opts : SplineOpts3D)
    (hS : opts.num_of_segments = 0) : sampledPart3d pts opts = [] := by
  rw [← List.length_eq_zero, sampledPart3d_length, hS, Nat.mul_zero]

/-- C10: with `segments_per_interval = 0` and at least two input points,
`calc_spline` (and `calc_spline_3d`) succeeds and returns exactly one
point: the first input point when closed, else the last input point. -/
theorem claim_C10_zero_segments (pts : List Point) (opts : SplineOpts)
    (pts3 : List Point3D) (opts3 : SplineOpts3D)
    (hN : 2 ≤ pts.length) (hS : opts.num_of_segments = 0)
    (hN3 : 2 ≤ pts3.length) (hS3 : opts3.num_of_segments = 0) :
    calc_spline pts opts = .ok
      [if opts.closed then Point.new (getP pts 0).x (getP pts 0).y
       else Point.new (getP pts (pts.length - 1)).x (getP pts (pts.length - 1)).y] ∧
    calc_spline_3d pts3 opts3 = .ok
      [if opts3.closed then
        Point3D.new (getP3 pts3 0).x (getP3 pts3 0).y (getP3 pts3 0).z
       else
        Point3D.new (getP3 pts3 (pts3.length - 1)).x
          (getP3 pts3 (pts3.length - 1)).y (getP3 pts3 (pts3.length - 1)).z] := by
  constructor
  · rw [calc_spline_eq pts opts hN, sampledPart_eq_nil pts opts hS,
      List.nil_append, closingPoint]
  · rw [calc_spline_3d_eq pts3 opts3 hN3, sampledPart3d_eq_nil pts3 opts3 hS3,
      List.nil_append, closingPoint3d]

theorem claim_C10_zero_segments_witness :
    2 ≤ pB.length ∧ oZero.num_of_segments = 0 ∧
    2 ≤ pB3.length ∧ oZero3.num_of_segments = 0 ∧
    (calc_spline pB oZero = .ok
      [if oZero.closed then Point.new (getP pB 0).x (getP pB 0).y
       else Point.new (getP pB (pB.length - 1)).x (getP pB (pB.length - 1)).y] ∧
     calc_spline_3d pB3 oZero3 = .ok
      [if oZero3.closed then
        Point3D.new (getP3 pB3 0).x (getP3 pB3 0).y (getP3 pB3 0).z
       else
        Point3D.new (getP3 pB3 (pB3.length - 1)).x
          (getP3 pB3 (pB3.length - 1)).y (getP3 pB3 (pB3.length - 1)).z]) :=
  ⟨by decide, by decide, by decide, by decide,
    claim_C10_zero_segments pB oZero pB3 oZero3
      (by decide) (by decide) (by decide) (by decide)⟩

/-- C9 counterexample: with two input points and `segments_per_interval = 0`,
`calc_spline` performs no division at all while computing the sampling
parameter (the inner loop body never executes), refuting the claim that the
evaluation divides by zero. -/
theorem claim_C9_counterexample : ¬ 0 < sampleDivisionCount pB oZero := by decide

/-- C9 (amended): `calc_spline` indeed has no guard against
`segments_per_interval = 0`, but no division by zero occurs: the sampling
parameter `st` is computed zero times (the inner loop runs `0` iterations
per window), and on any input with at least two points the call still
succeeds, returning just the closing point. -/
theorem claim_C9_amended (pts : List Point) (opts : SplineOpts)
    (hS : opts.num_of_segments = 0) :
    sampleDivisionCount pts opts = 0 ∧
    (2 ≤ pts.length → calc_spline pts opts = .ok
      [if opts.closed then Point.new (getP pts 0).x (getP pts 0).y
       else Point.new (getP pts (pts.length - 1)).x
         (getP pts (pts.length - 1)).y]) := by
  constructor
  · unfold sampleDivisionCount
    rw [hS, Nat.mul_zero]
    split <;> rfl
  · intro hN
    rw [calc_spline_eq pts opts hN, sampledPart_eq_nil pts opts hS,
      List.nil_append, closingPoint]

theorem claim_C9_amended_witness :
    oZero.num_of_segments = 0 ∧
    (sampleDivisionCount pB oZero = 0 ∧
     (2 ≤ pB.length → calc_spline pB oZero = .ok
      [if oZero.closed then Point.new (getP pB 0).x (getP pB 0).y
       else Point.new (getP pB (pB.length - 1)).x (getP pB (pB.length - 1)).y])) :=
  ⟨by decide, claim_C9_amended pB oZero (by decide)⟩

/-- The body of the inner sampling loop of `calc_spline` (`calc.rs` lines
61–76) as a function of the loop counter `t = k`: the `k`-th point emitted
for a window. -/
def sampleAt (w : Window) (tension_from_opt : ℚ) (num_of_segments k : ℕ) : Point :=
  match w with
  | (prev, curr, next, next2) =>
    let tension := curr.tension.getD tension_from_opt
    let t1x := (next.x - prev.x) * tension
    let t2x := (next2.x - curr.x) * tension
    let t1y := (next.y - prev.y) * tension
    let t2y := (next2.y - curr.y) * tension
    let st : ℚ := (k : ℚ) / (num_of_segments : ℚ)
    let st_pow2 := st ^ 2
    let st_pow3 := st ^ 3
    let st_pow2x3 := 3 * st_pow2
    let st_pow3x2 := 2 * st_pow3
    let c1 := st_pow3x2 - st_pow2x3 + 1
    let c2 := -st_pow3x2 + st_pow2x3
    let c3 := st_pow3 - 2 * st_pow2 + st
    let c4 := st_pow3 - st_pow2
    let x := c1 * curr.x + c2 * next.x + c3 * t1x + c4 * t2x
    let y := c1 * curr.y + c2 * next.y + c3 * t1y + c4 * t2y
    Point.new x y

/-- 3D analog of `sampleAt` (`calc.rs` lines 150–167). -/
def sampleAt3d (w : Window3D) (tension_from_opt : ℚ) (num_of_segments k : ℕ) :
    Point3D :=
  match w with
  | (prev, curr, next, next2) =>
    let tension := curr.tension.getD tension_from_opt
    let t1x := (next.x - prev.x) * tension
    let t2x := (next2.x - curr.x) * tension
    let t1y := (next.y - prev.y) * tension
    let t2y := (next2.y - curr.y) * tension
    let t1z := (next.z - prev.z) * tension
    let t2z := (next2.z - curr.z) * tension
    let st : ℚ := (k : ℚ) / (num_of_segments : ℚ)
    let st_pow2 := st ^ 2
    let st_pow3 := st ^ 3
    let st_pow2x3 := 3 * st_pow2
    let st_pow3x2 := 2 * st_pow3
    let c1 := st_pow3x2 - st_pow2x3 + 1
    let c2 := -st_pow3x2 + st_pow2x3
    let c3 := st_pow3 - 2 * st_pow2 + st
    let c4 := st_pow3 - st_pow2
    let x := c1 * curr.x + c2 * next.x + c3 * t1x + c4 * t2x
    let y := c1 * curr.y + c2 * next.y + c3 * t1y + c4 * t2y
    let z := c1 * curr.z + c2 * next.z + c3 * t1z + c4 * t2z
    Point3D.new x y z

lemma windowPoints_eq_map (w : Window) (τ : ℚ) (S : ℕ) :
    windowPoints w τ S = (List.range S).map (sampleAt w τ S) := by
  obtain ⟨a, b, c, d⟩ := w
  rfl

lemma windowPoints3d_eq_map (w : Window3D) (τ : ℚ) (S : ℕ) :
    windowPoints3d w τ S = (List.range S).map (sampleAt3d w τ S) := by
  obtain ⟨a, b, c, d⟩ := w
  rfl

lemma windowPoints_getElem? (w : Window) (τ : ℚ) (S k : ℕ) (hk : k < S) :
    (windowPoints w τ S)[k]? = some (sampleAt w τ S k) := by
  rw [windowPoints_eq_map, List.getElem?_map, List.getElem?_range hk,
    Option.map_some']

lemma windowPoints3d_getElem? (w : Window3D) (τ : ℚ) (S k : ℕ) (hk : k < S) :
    (windowPoints3d w τ S)[k]? = some (sampleAt3d w τ S k) := by
  rw [windowPoints3d_eq_map, List.getElem?_map, List.getElem?_range hk,
    Option.map_some']

/-!  The cubic Hermite basis weights exactly as the specification writes
them, used to state C2. -/

/-- `c1 = 2s³ − 3s² + 1`. -/
def hermiteC1 (s : ℚ) : ℚ := 2 * s ^ 3 - 3 * s ^ 2 + 1

/-- `c2 = −2s³ + 3s²`. -/
def hermiteC2 (s : ℚ) : ℚ := -2 * s ^ 3 + 3 * s ^ 2

/-- `c3 = s³ − 2s² + s`. -/
def hermiteC3 (s : ℚ) : ℚ := s ^ 3 - 2 * s ^ 2 + s

/-- `c4 = s³ − s²`. -/
def hermiteC4 (s : ℚ) : ℚ := s ^ 3 - s ^ 2

/-- C8: in every window evaluation the first sampled point (`k = 0`, hence
`s = 0`) is exactly `curr`: its coordinates are equal (exactly, in the
model's exact arithmetic mirroring the implementation's operation order)
to `curr`'s, and the four basis weights at `s = 0` are `1, 0, 0, 0`. -/
theorem claim_C8_first_sample (prev curr next_p next2 : Point) (τ : ℚ) (S : ℕ)
    (hS : 1 ≤ S) :
    (windowPoints (prev, curr, next_p, next2) τ S).head? =
      some (Point.new curr.x curr.y) ∧
    hermiteC1 0 = 1 ∧ hermiteC2 0 = 0 ∧ hermiteC3 0 = 0 ∧ hermiteC4 0 = 0 := by
  refine ⟨?_, by norm_num [hermiteC1], by norm_num [hermiteC2],
    by norm_num [hermiteC3], by norm_num [hermiteC4]⟩
  rw [List.head?_eq_getElem?, windowPoints_getElem? _ τ S 0 (by omega),
    Option.some.injEq]
  show Point.new _ _ = _
  rw [Point.new, Point.new, Point.mk.injEq]
  norm_num

theorem claim_C8_first_sample_witness :
    1 ≤ (4 : ℕ) ∧
    ((windowPoints (Point.new 1 2, Point.new 3 4, Point.new 5 6, Point.new 7 8)
        (1/2) 4).head? = some (Point.new 3 4) ∧
     hermiteC1 0 = 1 ∧ hermiteC2 0 = 0 ∧ hermiteC3 0 = 0 ∧ hermiteC4 0 = 0) :=
  ⟨by decide,
    claim_C8_first_sample (Point.new 1 2) (Point.new 3 4) (Point.new 5 6)
      (Point.new 7 8) (1/2) 4 (by decide)⟩

/-- C2: for every window `(prev, curr, next, next2)` and every
`k < segments_per_interval`, with `s = k / segments_per_interval`, the
`k`-th emitted point of that window (2D and 3D alike) has, per axis, value
`c1*curr + c2*next + c3*t1 + c4*t2`, where the effective tension is `curr`'s
override if present else the configuration's, `t1 = (next − prev) * tension`,
`t2 = (next2 − curr) * tension`, and `c1..c4` are the cubic Hermite basis
weights at `s`; moreover consecutive samples have strictly increasing `s`. -/
theorem claim_C2_window_formula (prev curr next_p next2 : Point)
    (prev3 curr3 next_p3 next23 : Point3D) (τ : ℚ) (S k : ℕ) (hk : k < S) :
    (windowPoints (prev, curr, next_p, next2) τ S)[k]? = some (Point.new
      (hermiteC1 ((k : ℚ) / (S : ℚ)) * curr.x +
        hermiteC2 ((k : ℚ) / (S : ℚ)) * next_p.x +
        hermiteC3 ((k : ℚ) / (S : ℚ)) *
          ((next_p.x - prev.x) * (curr.tension.getD τ)) +
        hermiteC4 ((k : ℚ) / (S : ℚ)) *
          ((next2.x - curr.x) * (curr.tension.getD τ)))
      (hermiteC1 ((k : ℚ) / (S : ℚ)) * curr.y +
        hermiteC2 ((k : ℚ) / (S : ℚ)) * next_p.y +
        hermiteC3 ((k : ℚ) / (S : ℚ)) *
          ((next_p.y - prev.y) * (curr.tension.getD τ)) +
        hermiteC4 ((k : ℚ) / (S : ℚ)) *
          ((next2.y - curr.y) * (curr.tension.getD τ)))) ∧
    (windowPoints3d (prev3, curr3, next_p3, next23) τ S)[k]? = some (Point3D.new
      (hermiteC1 ((k : ℚ) / (S : ℚ)) * curr3.x +
        hermiteC2 ((k : ℚ) / (S : ℚ)) * next_p3.x +
        hermiteC3 ((k : ℚ) / (S : ℚ)) *
          ((next_p3.x - prev3.x) * (curr3.tension.getD τ)) +
        hermiteC4 ((k : ℚ) / (S : ℚ)) *
          ((next23.x - curr3.x) * (curr3.tension.getD τ)))
      (hermiteC1 ((k : ℚ) / (S : ℚ)) * curr3.y +
        hermiteC2 ((k : ℚ) / (S : ℚ)) * next_p3.y +
        hermiteC3 ((k : ℚ) / (S : ℚ)) *
          ((next_p3.y - prev3.y) * (curr3.tension.getD τ)) +
        hermiteC4 ((k : ℚ) / (S : ℚ)) *
          ((next23.y - curr3.y) * (curr3.tension.getD τ)))
      (hermiteC1 ((k : ℚ) / (S : ℚ)) * curr3.z +
        hermiteC2 ((k : ℚ) / (S : ℚ)) * next_p3.z +
        hermiteC3 ((k : ℚ) / (S : ℚ)) *
          ((next_p3.z - prev3.z) * (curr3.tension.getD τ)) +
        hermiteC4 ((k : ℚ) / (S : ℚ)) *
          ((next23.z - curr3.z) * (curr3.tension.getD τ)))) ∧
    (k + 1 < S → (k : ℚ) / (S : ℚ) < ((k : ℚ) + 1) / (S : ℚ)) := by
  refine ⟨?_, ?_, ?_⟩
  · rw [windowPoints_getElem? _ τ S k hk, Option.some.injEq]
    show Point.new _ _ = _
    rw [Point.new, Point.new, Point.mk.injEq]
    simp only [hermiteC1, hermiteC2, hermiteC3, hermiteC4]
    refine ⟨by ring, by ring, trivial⟩
  · rw [windowPoints3d_getElem? _ τ S k hk, Option.some.injEq]
    show Point3D.new _ _ _ = _
    rw [Point3D.new, Point3D.new, Point3D.mk.injEq]
    simp only [hermiteC1, hermiteC2, hermiteC3, hermiteC4]
    refine ⟨by ring, by ring, by ring, trivial⟩
  · intro hk1
    have hSpos : (0 : ℚ) < (S : ℚ) := by
      have : 0 < S := by omega
      exact_mod_cast this
    exact div_lt_div_of_pos_right (by linarith) hSpos


theorem claim_C2_window_formula_witness :
    (1 : ℕ) < 2 ∧
    ((windowPoints (Point.new 0 0, Point.new 1 2, Point.new 3 1, Point.new 4 0) (1/2) 2)[1]? = some (Point.new
      (hermiteC1 ((1 : ℚ) / (2 : ℚ)) * (Point.new 1 2).x +
        hermiteC2 ((1 : ℚ) / (2 : ℚ)) * (Point.new 3 1).x +
        hermiteC3 ((1 : ℚ) / (2 : ℚ)) * (((Point.new 3 1).x - (Point.new 0 0).x) * ((Point.new 1 2).tension.getD (1/2))) +
        hermiteC4 ((1 : ℚ) / (2 : ℚ)) * (((Point.new 4 0).x - (Point.new 1 2).x) * ((Point.new 1 2).tension.getD (1/2))))
      (hermiteC1 ((1 : ℚ) / (2 : ℚ)) * (Point.new 1 2).y +
        hermiteC2 ((1 : ℚ) / (2 : ℚ)) * (Point.new 3 1).y +
        hermiteC3 ((1 : ℚ) / (2 : ℚ)) * (((Point.new 3 1).y - (Point.new 0 0).y) * ((Point.new 1 2).tension.getD (1/2))) +
        hermiteC4 ((1 : ℚ) / (2 : ℚ)) * (((Point.new 4 0).y - (Point.new 1 2).y) * ((Point.new 1 2).tension.getD (1/2))))) ∧
    (windowPoints3d (Point3D.new 0 0 0, Point3D.new 1 2 1, Point3D.new 3 1 2, Point3D.new 4 0 3) (1/2) 2)[1]? = some (Point3D.new
      (hermiteC1 ((1 : ℚ) / (2 : ℚ)) * (Point3D.new 1 2 1).x +
        hermiteC2 ((1 : ℚ) / (2 : ℚ)) * (Point3D.new 3 1 2).x +
        hermiteC3 ((1 : ℚ) / (2 : ℚ)) * (((Point3D.new 3 1 2).x - (Point3D.new 0 0 0).x) * ((Point3D.new 1 2 1).tension.getD (1/2))) +
        hermiteC4 ((1 : ℚ) / (2 : ℚ)) * (((Point3D.new 4 0 3).x - (Point3D.new 1 2 1).x) * ((Point3D.new 1 2 1).tension.getD (1/2))))
      (hermiteC1 ((1 : ℚ) / (2 : ℚ)) * (Point3D.new 1 2 1).y +
        hermiteC2 ((1 : ℚ) / (2 : ℚ)) * (Point3D.new 3 1 2).y +
        hermiteC3 ((1 : ℚ) / (2 : ℚ)) * (((Point3D.new 3 1 2).y - (Point3D.new 0 0 0).y) * ((Point3D.new 1 2 1).tension.getD (1/2))) +
        hermiteC4 ((1 : ℚ) / (2 : ℚ)) * (((Point3D.new 4 0 3).y - (Point3D.new 1 2 1).y) * ((Point3D.new 1 2 1).tension.getD (1/2))))
      (hermiteC1 ((1 : ℚ) / (2 : ℚ)) * (Point3D.new 1 2 1).z +
        hermiteC2 ((1 : ℚ) / (2 : ℚ)) * (Point3D.new 3 1 2).z +
        hermiteC3 ((1 : ℚ) / (2 : ℚ)) * (((Point3D.new 3 1 2).z - (Point3D.new 0 0 0).z) * ((Point3D.new 1 2 1).tension.getD (1/2))) +
        hermiteC4 ((1 : ℚ) / (2 : ℚ)) * (((Point3D.new 4 0 3).z - (Point3D.new 1 2 1).z) * ((Point3D.new 1 2 1).tension.getD (1/2))))) ∧
    ((1 : ℕ) + 1 < 2 → (1 : ℚ) / (2 : ℚ) < ((1 : ℚ) + 1) / (2 : ℚ))) :=
  ⟨by decide,
    claim_C2_window_formula (Point.new 0 0) (Point.new 1 2) (Point.new 3 1)
      (Point.new 4 0) (Point3D.new 0 0 0) (Point3D.new 1 2 1) (Point3D.new 3 1 2)
      (Point3D.new 4 0 3) (1/2) 2 1 (by decide)⟩

/-- C5: on a closed curve with `N ≥ 2` points the generator emits exactly
`N` windows, the first window's `prev` is `point[N−1]`, and the `j`-th
window's `next2` is `point[(j + 2) mod N]` (so in particular `point[0]`
for the second-to-last window and `point[1]` for the last). -/
theorem claim_C5_closed_cyclic (pts : List Point) (opts : SplineOpts)
    (hN : 2 ≤ pts.length) (hc : opts.closed = true) :
    (windows pts opts).length = pts.length ∧
    (windows pts opts).head?.map prevOf = some (getP pts (pts.length - 1)) ∧
    (windows pts opts).map next2Of =
      (List.range pts.length).map (cyclicNext2 pts) := by
  have hmax : maxIdx pts opts = pts.length := by rw [maxIdx, hc, if_pos rfl]
  rw [windows_eq pts opts hN, hmax]
  refine ⟨by rw [List.length_map, List.length_range], ?_, ?_⟩
  · rw [List.head?_map, List.head?_eq_getElem?,
      List.getElem?_range (by omega : 0 < pts.length)]
    show some (prevOf (specWindow pts opts 0)) = _
    rw [Option.some.injEq, prevOf, specWindow]
    simp only [hc, if_pos rfl, if_true]
  · rw [List.map_map]
    refine List.map_congr_left ?_
    intro j hj
    rw [List.mem_range] at hj
    show next2Of (specWindow pts opts j) = cyclicNext2 pts j
    rw [next2Of, specWindow, cyclicNext2]
    simp only [hc, if_true]
    split_ifs with hA hB
    · rw [show j + 2 = pts.length from by omega, Nat.mod_self]
    · rw [show j + 2 = pts.length + 1 from by omega, Nat.add_mod_left,
        Nat.mod_eq_of_lt (by omega)]
    · rw [Nat.mod_eq_of_lt (by omega)]

theorem claim_C5_closed_cyclic_witness :
    2 ≤ pA.length ∧ oClosed.closed = true ∧
    ((windows pA oClosed).length = pA.length ∧
     (windows pA oClosed).head?.map prevOf = some (getP pA (pA.length - 1)) ∧
     (windows pA oClosed).map next2Of =
       (List.range pA.length).map (cyclicNext2 pA)) :=
  ⟨by decide, by decide, claim_C5_closed_cyclic pA oClosed (by decide) (by decide)⟩

/-- C3 counterexample: an open two-point curve with a configured hidden end
anchor.  The single (hence last) window's `next2` equals `next`
(`point[1] = (10, 0)`), not the provided hidden end `(5, 5)`: for `N = 2`
the generator builds its only window in `PointsIter::new`, which never
consults `hidden_point_at_end`, refuting the claim's `N = 2` clause. -/
theorem claim_C3_counterexample :
    pB.length = 2 ∧ oHid.closed = false ∧
    oHid.hidden_point_at_end = some (Point.new 5 5) ∧
    (windows pB oHid).getLast?.map next2Of = some (Point.new 10 0) ∧
    Point.new 10 0 ≠ Point.new 5 5 := by decide

/-- C3 (amended): for every open curve with `N ≥ 3` points, the last
window's `next2` is the configured hidden end anchor when provided and
`next` (= `point[N−1]`) otherwise; for `N = 2`, however, the single window's
`next2` is always `next` (= `point[1]`), even when a hidden end anchor is
provided — the hidden end is ignored in the two-point degenerate case. -/
theorem claim_C3_amended_last_window (pts : List Point) (opts : SplineOpts)
    (hN : 2 ≤ pts.length) (hc : opts.closed = false) :
    (windows pts opts).getLast?.map next2Of = some
      (if pts.length = 2 then getP pts 1
       else (opts.hidden_point_at_end).getD (getP pts (pts.length - 1))) := by
  have hmax : maxIdx pts opts = pts.length - 1 := by rw [maxIdx, hc]; rfl
  rw [windows_eq pts opts hN, hmax, List.getLast?_map, List.getLast?_eq_getElem?,
    List.length_range, List.getElem?_range (by omega : pts.length - 1 - 1 < pts.length - 1)]
  show some (next2Of (specWindow pts opts (pts.length - 1 - 1))) = _
  rw [Option.some.injEq, next2Of, specWindow]
  simp only [hc, Bool.false_eq_true, if_false]
  by_cases h2 : pts.length = 2
  · have hA : pts.length - 1 - 1 = 0 ∧ pts.length = 2 := by omega
    rw [if_pos hA, if_pos h2]
  · rw [if_neg h2, if_neg (by rintro ⟨h, hh⟩; omega), if_pos (by omega),
      show pts.length - 1 - 1 + 1 = pts.length - 1 from by omega]

theorem claim_C3_amended_last_window_witness :
    2 ≤ pB.length ∧ oHid.closed = false ∧
    (windows pB oHid).getLast?.map next2Of = some
      (if pB.length = 2 then getP pB 1
       else (oHid.hidden_point_at_end).getD (getP pB (pB.length - 1))) :=
  ⟨by decide, by decide, claim_C3_amended_last_window pB oHid (by decide) (by decide)⟩

/-- C7: when the curve is closed, the output of `calc_spline` does not
depend on the hidden anchors: replacing both hidden anchor fields by any
values leaves the result unchanged. -/
theorem claim_C7_closed_ignores_hidden (pts : List Point) (opts : SplineOpts)
    (h1 h2 : Option Point) (hc : opts.closed = true) :
    calc_spline pts
      { opts with hidden_point_at_start := h1, hidden_point_at_end := h2 } =
      calc_spline pts opts := by
  by_cases hN : pts.length < 2
  · unfold calc_spline
    rw [if_pos hN, if_pos hN]
  · have hN' : 2 ≤ pts.length := by omega
    rw [calc_spline_eq pts _ hN', calc_spline_eq pts opts hN']
    have hclose : closingPoint pts
        { opts with hidden_point_at_start := h1, hidden_point_at_end := h2 } =
        closingPoint pts opts := rfl
    have hwin : windows pts
        { opts with hidden_point_at_start := h1, hidden_point_at_end := h2 } =
        windows pts opts := by
      rw [windows_eq pts _ hN', windows_eq pts opts hN']
      have hmax : maxIdx pts
          { opts with hidden_point_at_start := h1, hidden_point_at_end := h2 } =
          maxIdx pts opts := rfl
      rw [hmax]
      refine List.map_congr_left ?_
      intro j _
      rw [specWindow, specWindow]
      simp only [hc, if_true, if_pos rfl]
    have hsamp : sampledPart pts
        { opts with hidden_point_at_start := h1, hidden_point_at_end := h2 } =
        sampledPart pts opts := by
      rw [sampledPart, sampledPart, hwin]
    rw [hsamp, hclose]

theorem claim_C7_closed_ignores_hidden_witness :
    oClosed.closed = true ∧
    calc_spline pA
      { oClosed with hidden_point_at_start := some (Point.new 7 7),
                     hidden_point_at_end := some (Point.new 8 8) } =
      calc_spline pA oClosed :=
  ⟨by decide,
    claim_C7_closed_ignores_hidden pA oClosed (some (Point.new 7 7))
      (some (Point.new 8 8)) (by decide)⟩

end CubicSpline
